import Mathlib

/-!
Shallow embedding of the domain-availability core of the domainbot repository
(src/convex/actions.ts, both the Namecheap and the GoDaddy revision, and the
candidate generator of src/convex/agent/index.ts), together with theorems
checking the natural-language specification against it.

JavaScript strings are modelled as Lean `String`; `charCodeAt` sums are
modelled with `Char.toNat` (the inputs of interest are ASCII, where the two
agree).  Fallible registrar calls are modelled with an explicit outcome
oracle, and thrown JS exceptions with `Except`.
-/

namespace DomainBot

/-- One availability result per submitted candidate (interface
`DomainCheckResult` of src/convex/actions.ts). -/
structure DomainCheckResult where
  domain : String
  available : Bool
  premium : Bool
  price : Option Rat
  errorMessage : Option String
deriving DecidableEq

/-- JS truthiness test for a `process.env` string: `undefined` and the empty
string are falsy (`!apiKey` in the source). -/
def jsFalsy : Option String → Bool
  | none => true
  | some s => s == ""

/-- ASCII lowercase letter, the character class `[a-z]` of the source regexes. -/
def isLowerAlpha (c : Char) : Bool := decide ('a' ≤ c) && decide (c ≤ 'z')

/-- Sum of the character codes of a string:
`[...domain].reduce((acc, c) => acc + c.charCodeAt(0), 0)`. -/
def charCodeSum (s : String) : Nat := s.data.foldl (fun acc c => acc + c.toNat) 0

/-- JS `String.prototype.split(".")` on the character list: splits at every
dot, keeping empty fragments, and returns at least one fragment. -/
def splitOnDot : List Char → List (List Char)
  | [] => [[]]
  | c :: rest =>
    if c = '.' then [] :: splitOnDot rest
    else
      match splitOnDot rest with
      | [] => [[c]]
      | g :: gs => (c :: g) :: gs

/-- `domain.split(".")[0]` of the mock generator: the part before the first
dot (the whole string when there is no dot). -/
def labelOf (domain : String) : String := ⟨(splitOnDot domain.data).headD []⟩

/-- `domain.slice(domain.indexOf("."))` of the mock generator: from the first
dot onward; when there is no dot, `indexOf` is `-1` and `slice(-1)` keeps just
the final character. -/
def tldOf (domain : String) : String :=
  match domain.data.findIdx? (fun c => c == '.') with
  | some i => ⟨domain.data.drop i⟩
  | none => ⟨domain.data.drop (domain.data.length - 1)⟩

/-- One alternative of the source regex `^(get|my|the|go)[a-z]+$`: the prefix
followed by at least one lowercase letter and nothing else. -/
def prefixAltMatch (p name : String) : Bool :=
  p.data.isPrefixOf name.data &&
    (let rest := name.data.drop p.data.length
     decide (0 < rest.length) && rest.all isLowerAlpha)

/-- `^(get|my|the|go)[a-z]+$.test(name)` of the mock generator. -/
def likelyPrefixMatch (name : String) : Bool :=
  prefixAltMatch "get" name || prefixAltMatch "my" name ||
    prefixAltMatch "the" name || prefixAltMatch "go" name

/-- The `isLikelyTaken` classification of `mockDomainAvailability`:
`name.length <= 4 || (tld === ".com" && name.length <= 8) || regex`. -/
def isLikelyTakenOf (domain : String) : Bool :=
  decide ((labelOf domain).length ≤ 4) ||
    (tldOf domain == ".com" && decide ((labelOf domain).length ≤ 8)) ||
    likelyPrefixMatch (labelOf domain)

/-- The `isPremium` classification of `mockDomainAvailability`:
`name.length <= 3 || /^[a-z]{4}$/.test(name)`. -/
def isPremiumOf (domain : String) : Bool :=
  decide ((labelOf domain).length ≤ 3) ||
    (decide ((labelOf domain).data.length = 4) && (labelOf domain).data.all isLowerAlpha)

/-- Body of the `domains.map` callback of `mockDomainAvailability`
(src/convex/actions.ts, GoDaddy revision lines 676-701). -/
def mockDomainOne (domain : String) : DomainCheckResult :=
  let hash := charCodeSum domain
  let randomFactor := hash % 100
  let available := !isLikelyTakenOf domain && decide (randomFactor > 30)
  { domain := domain
    available := available
    premium := isPremiumOf domain && available
    price := if isPremiumOf domain && available then some ((500 + hash % 9500 : Nat) : Rat) else none
    errorMessage := none }

/-- `mockDomainAvailability` of src/convex/actions.ts: the deterministic
synthetic fallback, one result per domain. -/
def mockDomainAvailability (domains : List String) : List DomainCheckResult :=
  domains.map mockDomainOne

/-- Modelled from the spec for comparison only: the spec (§4.3) says the label
portion is "the domain minus the last `.tld`", i.e. everything before the
LAST dot (the whole string when there is no dot). -/
def specLabelOf (domain : String) : String :=
  match (domain.data.reverse.findIdx? (fun c => c == '.')) with
  | some i => ⟨domain.data.take (domain.data.length - 1 - i)⟩
  | none => domain

/-- Modelled from the spec for comparison only: the trailing `.tld` (from the
last dot onward), empty when there is no dot. -/
def specTldOf (domain : String) : String :=
  match (domain.data.reverse.findIdx? (fun c => c == '.')) with
  | some i => ⟨domain.data.drop (domain.data.length - 1 - i)⟩
  | none => ""

/-- Modelled from the spec for comparison only: the likely-taken
classification of claim C9 read with the spec's definition of "label". -/
def specLikelyTaken (domain : String) : Bool :=
  decide ((specLabelOf domain).length ≤ 4) ||
    (specTldOf domain == ".com" && decide ((specLabelOf domain).length ≤ 8)) ||
    likelyPrefixMatch (specLabelOf domain)

/-- Modelled from the spec for comparison only: availability as claim C9
states it, with the label taken before the LAST dot. -/
def specAvailableClaim (domain : String) : Bool :=
  !specLikelyTaken domain && decide (charCodeSum domain % 100 > 30)

/-! ## GoDaddy dispatcher (src/convex/actions.ts, second revision) -/

/-- The JSON body the GoDaddy availability endpoint answers with
(`{ available, definitive, domain, price, currency }`); price in micro-units. -/
structure GoDaddyData where
  available : Option Bool
  definitive : Option Bool
  price : Option Rat
  currency : Option String
deriving DecidableEq

/-- `parseGoDaddyResult` of src/convex/actions.ts: `price` is divided by the
1,000,000 micro-unit scale (a price of `0` is falsy in JS and treated like
`undefined`); `premium` iff available with a price above 50. -/
def parseGoDaddyResult (domain : String) (data : GoDaddyData) : DomainCheckResult :=
  let available := data.available == some true
  let price : Option Rat :=
    match data.price with
    | none => none
    | some p => if p = 0 then none else some (p / 1000000)
  let premium := available &&
    (match price with
     | some q => decide (q > 50)
     | none => false)
  { domain := domain
    available := available
    premium := premium
    price := if premium then price else none
    errorMessage := none }

/-- The unreserved characters of `encodeURIComponent`. -/
def isUriUnreserved (c : Char) : Bool :=
  c.isAlphanum || c == '-' || c == '_' || c == '.' || c == '!' || c == '~' ||
    c == '*' || c == Char.ofNat 39 || c == '(' || c == ')'

/-- Hexadecimal digit for percent-encoding. -/
def hexDigit (n : Nat) : Char := "0123456789ABCDEF".data.getD n '0'

/-- Models `encodeURIComponent` on ASCII strings: unreserved characters pass
through, every other character is percent-encoded. -/
def encodeURIComponentModel (s : String) : String :=
  ⟨s.data.flatMap fun c =>
    if isUriUnreserved c then [c]
    else ['%', hexDigit (c.toNat / 16 % 16), hexDigit (c.toNat % 16)]⟩

/-- Base URL of the GoDaddy availability endpoint. -/
def GODADDY_API_URL : String := "https://api.godaddy.com/v1/domains/available"

/-- The `fetch` request the dispatcher issues for one domain.  The source's
request init carries only the method and two headers; in particular no
`AbortSignal` is attached (`signal := none`) and no timeout exists. -/
structure FetchRequest where
  url : String
  method : String
  authHeader : String
  accept : String
  signal : Option Nat
deriving DecidableEq

/-- The request built at src/convex/actions.ts lines 597-603 (and identically
for the retry at lines 611-617). -/
def goDaddyRequest (apiKey apiSecret domain : String) : FetchRequest :=
  { url := GODADDY_API_URL ++ "?domain=" ++ encodeURIComponentModel domain
    method := "GET"
    authHeader := "sso-key " ++ apiKey ++ ":" ++ apiSecret
    accept := "application/json"
    signal := none }

/-- Outcome of one awaited `fetch` (with its `.json()` read): either the call
rejects with an `Error` carrying a message, or a response arrives with its
`ok` flag, status code and parsed JSON body. -/
inductive FetchOutcome where
  | throw (msg : String)
  | respond (ok : Bool) (status : Nat) (data : GoDaddyData)

/-- Observable events of a dispatch: a registrar call starting, a registrar
call settling, and a `setTimeout` sleep of the given milliseconds. -/
inductive Ev where
  | callStart (req : FetchRequest)
  | callEnd
  | wait (ms : Nat)
deriving DecidableEq

/-- Per-domain error result pushed by the `catch` of the loop body:
`error instanceof Error ? error.message : "Unknown error"`. -/
def caughtResult (domain msg : String) : DomainCheckResult :=
  { domain := domain, available := false, premium := false, price := none,
    errorMessage := some msg }

/-- Per-domain error result for a non-ok response:
`errorMessage: API error: status`. -/
def apiErrorResult (domain : String) (status : Nat) : DomainCheckResult :=
  { domain := domain, available := false, premium := false, price := none,
    errorMessage := some ("API error: " ++ toString status) }

/-- The `try` block of the per-domain loop body of `checkDomainsWithGoDaddy`
(src/convex/actions.ts lines 596-637): one fetch; on a non-ok 429 response
wait 1000 ms and retry once; on any other non-ok response record an API
error; after a successful parse wait 100 ms.  The oracle `fetch` maps a
domain and attempt number to that call's outcome; `.error` is an exception
escaping the block; the event list records calls and sleeps. -/
def processDomainTry (fetch : String → Nat → FetchOutcome) (apiKey apiSecret domain : String) :
    Except String DomainCheckResult × List Ev :=
  let req := goDaddyRequest apiKey apiSecret domain
  match fetch domain 0 with
  | .throw msg => (.error msg, [.callStart req, .callEnd])
  | .respond ok status data =>
    if ok then
      (.ok (parseGoDaddyResult domain data), [.callStart req, .callEnd, .wait 100])
    else if status = 429 then
      match fetch domain 1 with
      | .throw msg =>
        (.error msg, [.callStart req, .callEnd, .wait 1000, .callStart req, .callEnd])
      | .respond ok2 _ data2 =>
        if ok2 then
          (.ok (parseGoDaddyResult domain data2),
           [.callStart req, .callEnd, .wait 1000, .callStart req, .callEnd])
        else
          (.ok (apiErrorResult domain status),
           [.callStart req, .callEnd, .wait 1000, .callStart req, .callEnd])
    else
      (.ok (apiErrorResult domain status), [.callStart req, .callEnd])

/-- The per-domain loop body with its `catch`: an exception thrown anywhere in
the block becomes a result with `errorMessage` and the loop continues. -/
def processDomain (fetch : String → Nat → FetchOutcome) (apiKey apiSecret domain : String) :
    DomainCheckResult × List Ev :=
  match processDomainTry fetch apiKey apiSecret domain with
  | (.ok r, evs) => (r, evs)
  | (.error msg, evs) => (caughtResult domain msg, evs)

/-- `checkDomainsWithGoDaddy` of src/convex/actions.ts: a strictly sequential
`for` loop over the batch, pushing one result per domain in input order. -/
def checkDomainsWithGoDaddy (fetch : String → Nat → FetchOutcome) (apiKey apiSecret : String) :
    List String → List DomainCheckResult × List Ev
  | [] => ([], [])
  | d :: rest =>
    ((processDomain fetch apiKey apiSecret d).1 ::
       (checkDomainsWithGoDaddy fetch apiKey apiSecret rest).1,
     (processDomain fetch apiKey apiSecret d).2 ++
       (checkDomainsWithGoDaddy fetch apiKey apiSecret rest).2)

/-- Execution environment of the `checkDomains` action (GoDaddy revision):
the two credential variables, the network oracle, and the wall clock (which
nothing on this path ever reads). -/
structure Env where
  apiKey : Option String
  apiSecret : Option String
  fetch : String → Nat → FetchOutcome
  now : Nat

/-- Handler of the `checkDomains` action (GoDaddy revision, src/convex/actions.ts
lines 563-584): missing credentials route the batch to the mock with no
network call; otherwise the GoDaddy path runs.  Its surrounding `catch`
(falling back to the mock) is unreachable because every throw inside
`checkDomainsWithGoDaddy` is already caught by the per-domain `catch`
(modelled in `processDomain`). -/
def checkDomains (env : Env) (domains : List String) : List DomainCheckResult × List Ev :=
  if jsFalsy env.apiKey || jsFalsy env.apiSecret then
    (mockDomainAvailability domains, [])
  else
    checkDomainsWithGoDaddy env.fetch (env.apiKey.getD "") (env.apiSecret.getD "") domains

/-- Number of registrar calls started in an event list. -/
def countStarts : List Ev → Nat
  | [] => 0
  | .callStart _ :: rest => countStarts rest + 1
  | _ :: rest => countStarts rest

/-- The sleep durations, in order, of an event list. -/
def waitsOf : List Ev → List Nat
  | [] => []
  | .wait ms :: rest => ms :: waitsOf rest
  | _ :: rest => waitsOf rest

/-- The requests of the calls started in an event list, in order. -/
def requestsOf : List Ev → List FetchRequest
  | [] => []
  | .callStart req :: rest => req :: requestsOf rest
  | _ :: rest => requestsOf rest

/-- `boundedFrom bound c evs` checks that, starting from `c` calls in flight,
the number of simultaneously in-flight calls never exceeds `bound` along the
event list. -/
def boundedFrom (bound : Nat) : Nat → List Ev → Bool
  | _, [] => true
  | c, .callStart _ :: rest => decide (c + 1 ≤ bound) && boundedFrom bound (c + 1) rest
  | c, .callEnd :: rest => boundedFrom bound (c - 1) rest
  | c, .wait _ :: rest => boundedFrom bound c rest

/-! ## Namecheap path (src/convex/actions.ts, first revision) -/

/-- `dropPre pat s` returns the rest of `s` after the prefix `pat`, or `none`
when `pat` is not a prefix. -/
def dropPre : List Char → List Char → Option (List Char)
  | [], s => some s
  | _, [] => none
  | p :: ps, c :: cs => if p = c then dropPre ps cs else none

/-- The ASCII part of the regex whitespace class `\s`. -/
def isWs (c : Char) : Bool :=
  c == ' ' || c == '\t' || c == '\n' || c == '\r' || c == '\x0b' || c == '\x0c'

/-- One attribute regex of `parseNamecheapResponse`, e.g. `/Domain="([^"]+)"/`:
find the leftmost occurrence of the literal `pat`, then capture the nonempty
run of non-quote characters up to the closing quote. -/
def findAttr (pat : List Char) : List Char → Option (List Char)
  | [] => none
  | c :: rest =>
    match dropPre pat (c :: rest) with
    | some after =>
      let val := after.takeWhile (fun x => !(x == '"'))
      let rest2 := after.dropWhile (fun x => !(x == '"'))
      if decide (0 < val.length) && decide (rest2.headD ' ' = '"') then some val
      else findAttr pat rest
    | none => findAttr pat rest

/-- Attempts the outer regex `/<DomainCheckResult\s+([^>]+)\/>/` at the start
of the list: after the literal, the run up to the first `>` must consist of
at least one whitespace character, then the (backtracking-minimal nonempty)
capture, then the closing `/`.  On success returns the capture and the
remainder after the match. -/
def matchDCRAt (s : List Char) : Option (List Char × List Char) :=
  match dropPre "<DomainCheckResult".data s with
  | none => none
  | some after =>
    let run := after.takeWhile (fun x => !(x == '>'))
    let rest := after.dropWhile (fun x => !(x == '>'))
    if decide (rest.headD ' ' = '>') && decide (run.getLast? = some '/') then
      let body := run.dropLast
      let ws := body.takeWhile isWs
      let cap := body.dropWhile isWs
      if decide (0 < ws.length) then
        if decide (0 < cap.length) then some (cap, rest.drop 1)
        else if decide (2 ≤ ws.length) then some ([ws.getLastD ' '], rest.drop 1)
        else none
      else none
    else none

/-- Models `Number.parseFloat` on strings whose leading characters form a
plain decimal numeral with an optional sign and fraction (the shapes the
registrar emits); inputs with no leading numeral, where the source yields
`NaN`, map to 0. -/
def jsParseFloat (s : String) : Rat :=
  let t := s.data.dropWhile isWs
  let neg := t.headD ' ' = '-'
  let t := if t.headD ' ' = '-' || t.headD ' ' = '+' then t.drop 1 else t
  let intPart := t.takeWhile Char.isDigit
  let t2 := t.dropWhile Char.isDigit
  let fracPart := if t2.headD ' ' = '.' then (t2.drop 1).takeWhile Char.isDigit else []
  let intVal : Nat := intPart.foldl (fun acc c => acc * 10 + (c.toNat - 48)) 0
  let fracVal : Nat := fracPart.foldl (fun acc c => acc * 10 + (c.toNat - 48)) 0
  let mag : Rat := (intVal : Rat) + (fracVal : Rat) / ((10 : Rat) ^ fracPart.length)
  if neg then -mag else mag

/-- Builds the result pushed for one `<DomainCheckResult .../>` element: the
entry is kept only when the `Domain` attribute matched; `available` and
`premium` compare their attribute to `"true"`; `price` is parsed whenever the
`PremiumRegistrationPrice` attribute is present, independent of `premium`. -/
def mkNCResult (attrs : List Char) : Option DomainCheckResult :=
  match findAttr "Domain=\"".data attrs with
  | none => none
  | some dm =>
    some { domain := ⟨dm⟩
           available := (findAttr "Available=\"".data attrs) == some "true".data
           premium := (findAttr "IsPremiumName=\"".data attrs) == some "true".data
           price := (findAttr "PremiumRegistrationPrice=\"".data attrs).map
             (fun v => jsParseFloat ⟨v⟩)
           errorMessage := none }

/-- The `while ((match = domainResultRegex.exec(xmlText)) !== null)` scan:
leftmost matches, resuming after each match; fuel-driven structural recursion
(the fuel, initialised to the text length, never runs out because every step
consumes at least one character). -/
def scanDCRFuel : Nat → List Char → List DomainCheckResult
  | 0, _ => []
  | _, [] => []
  | fuel + 1, s =>
    match matchDCRAt s with
    | some (attrs, remainder) =>
      (match mkNCResult attrs with
       | some r => [r]
       | none => []) ++ scanDCRFuel fuel remainder
    | none => scanDCRFuel fuel (s.drop 1)

/-- All `DomainCheckResult` elements of the response text, in order. -/
def scanDCR (xmlText : String) : List DomainCheckResult :=
  scanDCRFuel xmlText.data.length xmlText.data

/-- The regex `/<Error[^>]*>([^<]+)<\/Error>/`: leftmost `<Error`, anything up
to a `>`, then the nonempty message run up to a `<` that starts `</Error>`. -/
def findErrorTag : List Char → Option String
  | [] => none
  | c :: rest =>
    match dropPre "<Error".data (c :: rest) with
    | some after =>
      let rest1 := after.dropWhile (fun x => !(x == '>'))
      let msg := (rest1.drop 1).takeWhile (fun x => !(x == '<'))
      let rest2 := (rest1.drop 1).dropWhile (fun x => !(x == '<'))
      if decide (rest1.headD ' ' = '>') && decide (0 < msg.length) &&
          (dropPre "</Error>".data rest2).isSome then
        some ⟨msg⟩
      else findErrorTag rest
    | none => findErrorTag rest

/-- `parseNamecheapResponse` of src/convex/actions.ts (first revision, lines
107-156): collects the parsed elements; when none parsed, a matched `<Error>`
tag is thrown, otherwise every submitted domain gets a parse-failure entry.
Note the returned entries echo the RESPONSE, not the submitted list. -/
def parseNamecheapResponse (xmlText : String) (originalDomains : List String) :
    Except String (List DomainCheckResult) :=
  let results := scanDCR xmlText
  if results.length = 0 then
    match findErrorTag xmlText.data with
    | some msg => .error ("Namecheap API error: " ++ msg)
    | none =>
      .ok (originalDomains.map fun domain =>
        { domain := domain, available := false, premium := false, price := none,
          errorMessage := some "Failed to parse API response" })
  else .ok results

/-- `MAX_DOMAINS_PER_REQUEST` of `checkDomainsWithNamecheap`. -/
def MAX_DOMAINS_PER_REQUEST : Nat := 50

/-- The batch slicing `for (let i = 0; i < domains.length; i += 50)`. -/
def chunk50 (l : List String) : List (List String)  :=
  if h : l = [] then []
  else l.take MAX_DOMAINS_PER_REQUEST :: chunk50 (l.drop MAX_DOMAINS_PER_REQUEST)
termination_by l.length
decreasing_by
  simp only [List.length_drop]
  have : 0 < l.length := List.length_pos.mpr h
  simp [MAX_DOMAINS_PER_REQUEST]
  omega

/-- Outcome of one awaited Namecheap batch `fetch` (with its `.text()` read):
a rejection with an `Error` message, or a response with `ok` flag, status and
body text. -/
inductive NCOutcome where
  | throw (msg : String)
  | respond (ok : Bool) (status : Nat) (body : String)

/-- Execution environment of the Namecheap `checkDomains` action: the four
credential variables and the per-batch network oracle (indexed by batch
number). -/
structure NCEnv where
  apiUser : Option String
  apiKey : Option String
  userName : Option String
  clientIp : Option String
  batchOutcome : Nat → NCOutcome

/-- `checkDomainBatch` of src/convex/actions.ts (first revision): one fetch
for the whole batch; a non-ok response throws `Namecheap API error: status`;
otherwise the body is parsed. -/
def checkDomainBatchE (env : NCEnv) (idx : Nat) (domains : List String) :
    Except String (List DomainCheckResult) :=
  match env.batchOutcome idx with
  | .throw msg => .error msg
  | .respond ok status body =>
    if ok then parseNamecheapResponse body domains
    else .error ("Namecheap API error: " ++ toString status)

/-- The sequential `for (const batch of batches)` loop: results concatenate;
a throw aborts the remaining batches.  The second component records which
batches were actually fetched. -/
def checkBatchesE (env : NCEnv) (idx : Nat) :
    List (List String) → Except String (List DomainCheckResult) × List (List String)
  | [] => (.ok [], [])
  | b :: rest =>
    match checkDomainBatchE env idx b with
    | .error e => (.error e, [b])
    | .ok rs =>
      ((checkBatchesE env (idx + 1) rest).1.map (fun more => rs ++ more),
       b :: (checkBatchesE env (idx + 1) rest).2)

/-- `checkDomainsWithNamecheap` of src/convex/actions.ts: batches of at most
50 domains; a single batch otherwise. -/
def checkDomainsWithNamecheapE (env : NCEnv) (domains : List String) :
    Except String (List DomainCheckResult) × List (List String) :=
  if domains.length > MAX_DOMAINS_PER_REQUEST then checkBatchesE env 0 (chunk50 domains)
  else (checkDomainBatchE env 0 domains, [domains])

/-- Handler of the `checkDomains` action (Namecheap revision, lines 20-48):
any missing credential routes to the mock with no network call; an exception
escaping the Namecheap path is caught and the whole batch resolved by the
mock.  The second component lists the batches fetched. -/
def checkDomainsNamecheap (env : NCEnv) (domains : List String) :
    List DomainCheckResult × List (List String) :=
  if jsFalsy env.apiUser || jsFalsy env.apiKey || jsFalsy env.userName ||
      jsFalsy env.clientIp then
    (mockDomainAvailability domains, [])
  else
    (match (checkDomainsWithNamecheapE env domains).1 with
     | .ok rs => rs
     | .error _ => mockDomainAvailability domains,
     (checkDomainsWithNamecheapE env domains).2)

/-! ## Candidate generator (src/convex/agent/index.ts, generateDomainNames tool) -/

/-- JS `Set` as an insertion-ordered duplicate-free list: `suggestions.add`. -/
def setAdd (l : List String) (s : String) : List String :=
  if s ∈ l then l else l ++ [s]

/-- Keyword cleaning: `k.toLowerCase().replace(/[^a-z0-9]/g, "")` (ASCII). -/
def cleanKeyword (k : String) : String :=
  ⟨(k.data.map Char.toLower).filter (fun c => isLowerAlpha c || c.isDigit)⟩

/-- `args.keywords.map(clean).filter(k => k.length > 0)`. -/
def cleanKeywordsOf (keywords : List String) : List String :=
  (keywords.map cleanKeyword).filter (fun k => decide (0 < k.length))

/-- Default TLD list of the generateDomainNames tool. -/
def agentDefaultTlds : List String := [".com", ".io", ".co", ".dev", ".app", ".ai"]

/-- The suggestion `Set` built by the generateDomainNames tool handler
(src/convex/agent/index.ts lines 42-75) before the final `slice(0, 8)`:
for the first three cleaned keywords, the keyword with the first four tlds,
the first three prefixes with `.com`/`.io` only, the first two suffixes with
`.com` only; then, when at least two cleaned keywords exist, the single
compound `keywords[0]+keywords[1]` with `.com` and `.io`. -/
def generateDomainNamesSet (keywords : List String) (tldsOpt : Option (List String)) :
    List String :=
  let tlds := tldsOpt.getD agentDefaultTlds
  let prefixes := ["get", "my", "use", "try", "go", "hey"]
  let suffixes := ["app", "hq", "hub", "ly", "ify"]
  let cleanKeywords := cleanKeywordsOf keywords
  let base := (cleanKeywords.take 3).foldl
    (fun acc keyword =>
      let acc1 := (tlds.take 4).foldl (fun a tld => setAdd a (keyword ++ tld)) acc
      let acc2 := (prefixes.take 3).foldl
        (fun a p => setAdd (setAdd a (p ++ keyword ++ ".com")) (p ++ keyword ++ ".io")) acc1
      (suffixes.take 2).foldl (fun a suf => setAdd a (keyword ++ suf ++ ".com")) acc2)
    []
  if 2 ≤ cleanKeywords.length then
    setAdd
      (setAdd base (cleanKeywords.getD 0 "" ++ cleanKeywords.getD 1 "" ++ ".com"))
      (cleanKeywords.getD 0 "" ++ cleanKeywords.getD 1 "" ++ ".io")
  else base

/-- The generateDomainNames tool handler: the suggestion set truncated to 8. -/
def generateDomainNames (keywords : List String) (tldsOpt : Option (List String)) :
    List String :=
  (generateDomainNamesSet keywords tldsOpt).take 8

/-! ## Concrete environments and inputs used by counterexamples and witnesses -/

/-- An empty GoDaddy JSON body. -/
def emptyGD : GoDaddyData :=
  { available := none, definitive := none, price := none, currency := none }

/-- A network oracle on which every call is answered HTTP 429. -/
def fetch429 : String → Nat → FetchOutcome := fun _ _ => .respond false 429 emptyGD

/-- A network oracle on which every call succeeds with `available: true`. -/
def fetchOk : String → Nat → FetchOutcome := fun _ _ =>
  .respond true 200 { available := some true, definitive := some true, price := none,
                      currency := none }

/-- A network oracle on which every call rejects. -/
def fetchThrow : String → Nat → FetchOutcome := fun _ _ => .throw "network down"

/-- Configured GoDaddy environment whose every call is rate-limited. -/
def env429 : Env :=
  { apiKey := some "k", apiSecret := some "s", fetch := fetch429, now := 0 }

/-- Configured GoDaddy environment whose every call succeeds. -/
def envOk : Env :=
  { apiKey := some "k", apiSecret := some "s", fetch := fetchOk, now := 0 }

/-- Unconfigured environment: no API key; oracle and clock arbitrary. -/
def envNoKey : Env :=
  { apiKey := none, apiSecret := some "s", fetch := fetchThrow, now := 1 }

/-- A second unconfigured environment with a different oracle and clock. -/
def envNoKey2 : Env :=
  { apiKey := none, apiSecret := none, fetch := fetchOk, now := 999999 }

/-- Namecheap environment with a missing `NAMECHEAP_API_USER`. -/
def ncEnvNoUser : NCEnv :=
  { apiUser := none, apiKey := some "k", userName := some "n", clientIp := some "1.2.3.4",
    batchOutcome := fun _ => .throw "unused" }

/-- A Namecheap response listing a single domain, `b.com`, only. -/
def xmlOneResult : String :=
  "<Resp><DomainCheckResult Domain=\"b.com\" Available=\"true\" /></Resp>"

/-- Configured Namecheap environment answering every batch with
`xmlOneResult`. -/
def ncEnvOne : NCEnv :=
  { apiUser := some "u", apiKey := some "k", userName := some "n", clientIp := some "1.2.3.4",
    batchOutcome := fun _ => .respond true 200 xmlOneResult }

/-- A Namecheap response whose entry is not premium yet carries a
`PremiumRegistrationPrice` attribute. -/
def xmlNonPremiumPrice : String :=
  "<DomainCheckResult Domain=\"x.com\" Available=\"true\" IsPremiumName=\"false\" PremiumRegistrationPrice=\"10\" />"

/-! ## Helper lemmas -/

/-- Every branch of the per-domain loop body echoes the submitted domain. -/
theorem processDomain_domain (f : String → Nat → FetchOutcome) (k s d : String) :
    (processDomain f k s d).1.domain = d := by
  rcases h0 : f d 0 with msg | ⟨ok, status, data⟩
  · simp [processDomain, processDomainTry, h0, caughtResult]
  · cases ok
    · by_cases h429 : status = 429
      · subst h429
        rcases h1 : f d 1 with msg | ⟨ok2, st2, data2⟩
        · simp [processDomain, processDomainTry, h0, h1, caughtResult]
        · cases ok2 <;>
            simp [processDomain, processDomainTry, h0, h1, apiErrorResult, parseGoDaddyResult]
      · simp [processDomain, processDomainTry, h0, h429, apiErrorResult]
    · simp [processDomain, processDomainTry, h0, parseGoDaddyResult]

/-- The trace of one loop iteration has one of three shapes: single call,
single call plus the 100 ms pacing sleep, or call, 1000 ms sleep, retry. -/
theorem processDomain_trace_shape (f : String → Nat → FetchOutcome) (k s d : String) :
    (processDomain f k s d).2 = [Ev.callStart (goDaddyRequest k s d), Ev.callEnd] ∨
    (processDomain f k s d).2 =
      [Ev.callStart (goDaddyRequest k s d), Ev.callEnd, Ev.wait 100] ∨
    (processDomain f k s d).2 =
      [Ev.callStart (goDaddyRequest k s d), Ev.callEnd, Ev.wait 1000,
       Ev.callStart (goDaddyRequest k s d), Ev.callEnd] := by
  rcases h0 : f d 0 with msg | ⟨ok, status, data⟩
  · left; simp [processDomain, processDomainTry, h0]
  · cases ok
    · by_cases h429 : status = 429
      · subst h429
        rcases h1 : f d 1 with msg | ⟨ok2, st2, data2⟩
        · right; right; simp [processDomain, processDomainTry, h0, h1]
        · cases ok2 <;>
            (right; right; simp [processDomain, processDomainTry, h0, h1])
      · left; simp [processDomain, processDomainTry, h0, h429]
    · right; left; simp [processDomain, processDomainTry, h0]

/-- Prepending one loop iteration's trace preserves any in-flight bound of at
least one. -/
theorem boundedFrom_processDomain (bound : Nat) (hb : 1 ≤ bound)
    (f : String → Nat → FetchOutcome) (k s d : String) (tr : List Ev) :
    boundedFrom bound 0 ((processDomain f k s d).2 ++ tr) = boundedFrom bound 0 tr := by
  rcases processDomain_trace_shape f k s d with h | h | h <;> rw [h] <;>
    simp [boundedFrom, hb]

/-- The GoDaddy loop trace keeps any in-flight bound of at least one. -/
theorem goDaddy_bounded (bound : Nat) (hb : 1 ≤ bound)
    (f : String → Nat → FetchOutcome) (k s : String) (ds : List String) :
    boundedFrom bound 0 (checkDomainsWithGoDaddy f k s ds).2 = true := by
  induction ds with
  | nil => rfl
  | cons d rest ih =>
    show boundedFrom bound 0 ((processDomain f k s d).2 ++
      (checkDomainsWithGoDaddy f k s rest).2) = true
    rw [boundedFrom_processDomain bound hb]
    exact ih

/-- The mock echoes the submitted domain. -/
theorem mockDomainOne_domain (d : String) : (mockDomainOne d).domain = d := rfl

/-- The mock returns one result per domain, in input order. -/
theorem mock_map_domain (ds : List String) :
    (mockDomainAvailability ds).map (fun r => r.domain) = ds := by
  simp [mockDomainAvailability, List.map_map, Function.comp_def, mockDomainOne_domain]

/-- The GoDaddy loop returns one result per domain, in input order. -/
theorem goDaddy_map_domain (f : String → Nat → FetchOutcome) (k s : String)
    (ds : List String) :
    (checkDomainsWithGoDaddy f k s ds).1.map (fun r => r.domain) = ds := by
  induction ds with
  | nil => rfl
  | cons d rest ih => simp [checkDomainsWithGoDaddy, processDomain_domain, ih]

/-- The likely-taken classification, spelled out. -/
theorem isLikelyTakenOf_iff (d : String) :
    isLikelyTakenOf d = true ↔
      ((labelOf d).length ≤ 4 ∨ (tldOf d = ".com" ∧ (labelOf d).length ≤ 8) ∨
        likelyPrefixMatch (labelOf d) = true) := by
  simp [isLikelyTakenOf, Bool.or_eq_true, Bool.and_eq_true, decide_eq_true_eq, beq_iff_eq]
  tauto

/-- Membership after a `Set.add` of the added element. -/
theorem mem_setAdd_self (l : List String) (a : String) : a ∈ setAdd l a := by
  by_cases h : a ∈ l <;> simp [setAdd, h]

/-- `Set.add` keeps earlier members. -/
theorem mem_setAdd_of_mem {l : List String} {a : String} (b : String) (h : a ∈ l) :
    a ∈ setAdd l b := by
  unfold setAdd
  split <;> simp [h]

/-! ## Claim theorems -/

/-- C1, counterexample: the Namecheap-revision availability check does not
guarantee one result per submitted domain in input order — with a registrar
response listing only `b.com`, the batch `["a.com", "b.com"]` resolves to a
single result for `b.com`. -/
theorem namecheap_order_counterexample :
    ((checkDomainsNamecheap ncEnvOne ["a.com", "b.com"]).1.map (fun r => r.domain)) =
      ["b.com"] ∧
    ["b.com"] ≠ ["a.com", "b.com"] := ⟨by decide, by decide⟩

/-- C1, amended: the GoDaddy-revision availability check (the registrar loop
as well as the mock fallback) returns, for every environment and every input
list, exactly one result per submitted domain with `result[i].domain` equal
to `input[i]`; the Namecheap parser instead echoes whatever the response
lists. -/
theorem checkDomains_order_preserved (env : Env) (domains : List String) :
    (checkDomains env domains).1.map (fun r => r.domain) = domains := by
  unfold checkDomains
  split
  · exact mock_map_domain domains
  · exact goDaddy_map_domain _ _ _ domains

/-- C2: the checkDomains action always resolves to a result array and never
rejects: the GoDaddy handler's value is the registrar loop's results or the
mock; every exception escaping a per-domain `try` block becomes a result
carrying the error's message; and the Namecheap handler's value is the
registrar results or the mock (any exception of that path is caught). -/
theorem checkDomains_never_rejects :
    (∀ (env : Env) (domains : List String),
       (checkDomains env domains).1 = mockDomainAvailability domains ∨
       (checkDomains env domains).1 =
         (checkDomainsWithGoDaddy env.fetch (env.apiKey.getD "") (env.apiSecret.getD "")
           domains).1) ∧
    (∀ (f : String → Nat → FetchOutcome) (k s d msg : String),
       (processDomainTry f k s d).1 = .error msg →
       (processDomain f k s d).1 = caughtResult d msg) ∧
    (∀ (env : NCEnv) (domains : List String),
       (checkDomainsNamecheap env domains).1 = mockDomainAvailability domains ∨
       ∃ rs, (checkDomainsWithNamecheapE env domains).1 = .ok rs ∧
         (checkDomainsNamecheap env domains).1 = rs) := by
  refine ⟨?_, ?_, ?_⟩
  · intro env ds
    unfold checkDomains
    split
    · exact Or.inl rfl
    · exact Or.inr rfl
  · intro f k s d msg h
    rcases hp : processDomainTry f k s d with ⟨e, evs⟩
    rw [hp] at h
    simp at h
    subst h
    simp [processDomain, hp]
  · intro env ds
    unfold checkDomainsNamecheap
    split
    · exact Or.inl rfl
    · rcases he : (checkDomainsWithNamecheapE env ds).1 with msg | rs
      · left; simp [he]
      · right; exact ⟨rs, rfl, by simp [he]⟩

/-- C2 witness: a rejecting network call resolves into a per-domain
`errorMessage` result. -/
theorem checkDomains_never_rejects_witness :
    (processDomain fetchThrow "k" "s" "a.com").1 = caughtResult "a.com" "network down" :=
  checkDomains_never_rejects.2.1 fetchThrow "k" "s" "a.com" "network down" rfl

/-- C3: a registrar credential absent from the environment routes the whole
batch to the synthetic fallback with no network call attempted, in both the
GoDaddy revision (two credentials) and the Namecheap revision (four). -/
theorem missing_credentials_mock_no_network :
    (∀ (env : Env) (domains : List String),
       env.apiKey = none ∨ env.apiSecret = none →
       checkDomains env domains = (mockDomainAvailability domains, [])) ∧
    (∀ (env : NCEnv) (domains : List String),
       env.apiUser = none ∨ env.apiKey = none ∨ env.userName = none ∨
         env.clientIp = none →
       checkDomainsNamecheap env domains = (mockDomainAvailability domains, [])) := by
  constructor
  · intro env ds h
    have hcond : (jsFalsy env.apiKey || jsFalsy env.apiSecret) = true := by
      rcases h with h | h <;> simp [jsFalsy, h]
    simp [checkDomains, hcond]
  · intro env ds h
    have hcond : (jsFalsy env.apiUser || jsFalsy env.apiKey || jsFalsy env.userName ||
        jsFalsy env.clientIp) = true := by
      rcases h with h | h | h | h <;> simp [jsFalsy, h]
    simp [checkDomainsNamecheap, hcond]

/-- C3 witness: concrete unconfigured environments resolve to the mock with an
empty call trace. -/
theorem missing_credentials_mock_no_network_witness :
    checkDomains envNoKey ["a.com"] = (mockDomainAvailability ["a.com"], []) ∧
    checkDomainsNamecheap ncEnvNoUser ["a.com"] = (mockDomainAvailability ["a.com"], []) :=
  ⟨missing_credentials_mock_no_network.1 envNoKey ["a.com"] (Or.inl rfl),
   missing_credentials_mock_no_network.2 ncEnvNoUser ["a.com"] (Or.inl rfl)⟩

/-- C4: at no point of any dispatch are more than 5 registrar calls
simultaneously in flight, for every environment and batch size; in fact the
dispatch is strictly sequential, so the in-flight count never exceeds 1. -/
theorem dispatch_concurrency_bounded (env : Env) (domains : List String) :
    boundedFrom 5 0 (checkDomains env domains).2 = true ∧
    boundedFrom 1 0 (checkDomains env domains).2 = true := by
  unfold checkDomains
  split
  · exact ⟨rfl, rfl⟩
  · exact ⟨goDaddy_bounded 5 (by norm_num) _ _ _ _, goDaddy_bounded 1 le_rfl _ _ _ _⟩

/-- C5, counterexample: a domain whose every attempt returns HTTP 429 is
retried exactly once after a fixed 1000 ms sleep — two attempts, not the
claimed three (base plus 2 retries), and no exponential 300·2^k backoff. -/
theorem retry_backoff_counterexample :
    (checkDomains env429 ["example.com"]).1 =
      [{ domain := "example.com", available := false, premium := false, price := none,
         errorMessage := some "API error: 429" }] ∧
    countStarts (checkDomains env429 ["example.com"]).2 = 2 ∧
    waitsOf (checkDomains env429 ["example.com"]).2 = [1000] ∧
    countStarts (checkDomains env429 ["example.com"]).2 ≠ 3 ∧
    waitsOf (checkDomains env429 ["example.com"]).2 ≠ [300, 600] :=
  ⟨by decide, by decide, by decide, by decide, by decide⟩

/-- C5, amended: on HTTP 429 the dispatcher sleeps a fixed 1000 ms and retries
that domain exactly once; when the retry also fails the domain's result
carries `errorMessage` "API error: 429" and the loop continues. -/
theorem retry_once_fixed_delay (f : String → Nat → FetchOutcome) (k s d : String)
    (g0 g1 : GoDaddyData) (st1 : Nat)
    (h0 : f d 0 = .respond false 429 g0) (h1 : f d 1 = .respond false st1 g1) :
    (processDomain f k s d).1 = apiErrorResult d 429 ∧
    (apiErrorResult d 429).errorMessage = some "API error: 429" ∧
    countStarts (processDomain f k s d).2 = 2 ∧
    waitsOf (processDomain f k s d).2 = [1000] := by
  refine ⟨?_, rfl, ?_, ?_⟩ <;>
    simp [processDomain, processDomainTry, h0, h1, countStarts, waitsOf]

/-- C5 witness: the amended retry behavior at a concrete all-429 oracle. -/
theorem retry_once_fixed_delay_witness :
    (processDomain fetch429 "k" "s" "example.com").1 = apiErrorResult "example.com" 429 ∧
    (apiErrorResult "example.com" 429).errorMessage = some "API error: 429" ∧
    countStarts (processDomain fetch429 "k" "s" "example.com").2 = 2 ∧
    waitsOf (processDomain fetch429 "k" "s" "example.com").2 = [1000] :=
  retry_once_fixed_delay fetch429 "k" "s" "example.com" emptyGD emptyGD 429 rfl rfl

/-- C6, counterexample: the request issued for a domain carries no
cancellation signal at all — in particular no 5-second timeout signal — so
per-domain calls are not timeout-bounded. -/
theorem no_timeout_signal_counterexample :
    (checkDomains envOk ["example.com"]).2.head? =
      some (Ev.callStart (goDaddyRequest "k" "s" "example.com")) ∧
    (goDaddyRequest "k" "s" "example.com").signal = none ∧
    (goDaddyRequest "k" "s" "example.com").signal ≠ some 5000 :=
  ⟨by decide, by decide, by decide⟩

/-- C6, amended: per-domain requests carry no timeout or cancellation signal;
a per-domain call that fails by throwing (which is how a runtime-level
timeout would surface) is never retried: exactly one attempt, and the result
carries the error's message in `errorMessage`. -/
theorem thrown_call_single_attempt (f : String → Nat → FetchOutcome) (k s d msg : String)
    (h : f d 0 = .throw msg) :
    (processDomain f k s d).1 = caughtResult d msg ∧
    countStarts (processDomain f k s d).2 = 1 ∧
    requestsOf (processDomain f k s d).2 = [goDaddyRequest k s d] ∧
    (goDaddyRequest k s d).signal = none := by
  refine ⟨?_, ?_, ?_, rfl⟩ <;>
    simp [processDomain, processDomainTry, h, countStarts, requestsOf]

/-- C6 witness: the amended single-attempt behavior at a concrete rejecting
oracle. -/
theorem thrown_call_single_attempt_witness :
    (processDomain fetchThrow "k" "s" "b.com").1 = caughtResult "b.com" "network down" ∧
    countStarts (processDomain fetchThrow "k" "s" "b.com").2 = 1 ∧
    requestsOf (processDomain fetchThrow "k" "s" "b.com").2 =
      [goDaddyRequest "k" "s" "b.com"] ∧
    (goDaddyRequest "k" "s" "b.com").signal = none :=
  thrown_call_single_attempt fetchThrow "k" "s" "b.com" "network down" rfl

/-- C7, counterexample: the Namecheap parser records a price whenever the
`PremiumRegistrationPrice` attribute is present, even for a non-premium
entry — so a produced result can carry a price with `premium` false. -/
theorem namecheap_price_without_premium_counterexample :
    (parseNamecheapResponse xmlNonPremiumPrice ["x.com"]).toOption.map
      (fun rs => rs.map (fun r => (r.domain, r.premium, r.price.isSome))) =
      some [("x.com", false, true)] := by decide

/-- C7, amended: in the GoDaddy parse and in the synthetic fallback the price
field is present exactly when `premium` is true; the Namecheap parse copies
the price attribute regardless of the premium flag. -/
theorem price_present_iff_premium :
    (∀ (domain : String) (data : GoDaddyData),
       (parseGoDaddyResult domain data).price.isSome = (parseGoDaddyResult domain data).premium) ∧
    (∀ (domains : List String) (r : DomainCheckResult),
       r ∈ mockDomainAvailability domains → r.price.isSome = r.premium) := by
  constructor
  · intro d data
    rcases data with ⟨av, df, pr, cur⟩
    rcases pr with _ | p
    · simp [parseGoDaddyResult]
    · by_cases hz : p = 0
      · simp [parseGoDaddyResult, hz]
      · cases hb : ((av == some true) && decide ((p / 1000000 : Rat) > 50)) <;>
          simp [parseGoDaddyResult, hz, hb]
  · intro ds r hr
    rcases List.mem_map.mp hr with ⟨d, _, rfl⟩
    cases h : (isPremiumOf d && (!isLikelyTakenOf d && decide (charCodeSum d % 100 > 30))) <;>
      simp [mockDomainOne, h]

/-- C7 witness: the price-premium correspondence at a concrete mock entry. -/
theorem price_present_iff_premium_witness :
    (mockDomainOne "test.io").price.isSome = (mockDomainOne "test.io").premium :=
  price_present_iff_premium.2 ["test.io"] (mockDomainOne "test.io")
    (by simp [mockDomainAvailability])

/-- C8: with no registrar configured, the availability check is deterministic
and network-free — any two environments (arbitrary oracle and wall clock)
yield identical results, the call trace is empty, and the value is the pure
mock of the input list. -/
theorem fallback_deterministic (e1 e2 : Env) (domains : List String)
    (h1 : (jsFalsy e1.apiKey || jsFalsy e1.apiSecret) = true)
    (h2 : (jsFalsy e2.apiKey || jsFalsy e2.apiSecret) = true) :
    checkDomains e1 domains = checkDomains e2 domains ∧
    (checkDomains e1 domains).2 = [] ∧
    (checkDomains e1 domains).1 = mockDomainAvailability domains := by
  simp [checkDomains, h1, h2]

/-- C8 witness: two unconfigured environments with different oracles and
clocks agree on a concrete batch. -/
theorem fallback_deterministic_witness :
    checkDomains envNoKey ["zap.io"] = checkDomains envNoKey2 ["zap.io"] ∧
    (checkDomains envNoKey ["zap.io"]).2 = [] ∧
    (checkDomains envNoKey ["zap.io"]).1 = mockDomainAvailability ["zap.io"] :=
  fallback_deterministic envNoKey envNoKey2 ["zap.io"] (by decide) (by decide)

/-- C9, counterexample: reading "label" as the spec defines it (the domain
minus the LAST `.tld`), the claimed availability rule is wrong: on
`no.cdefgh.io` the spec-read rule says available (label `no.cdefgh` has
length 9, hash mod 100 is 38 > 30) but the code marks it unavailable (it
takes the label before the FIRST dot, `no`, of length 2 ≤ 4). -/
theorem spec_label_available_counterexample :
    (mockDomainOne "no.cdefgh.io").available = false ∧
    specAvailableClaim "no.cdefgh.io" = true := ⟨by decide, by decide⟩

/-- C9, amended: with the label taken before the FIRST dot and the tld from
the first dot onward (as the code computes them), a domain is available iff
it is not likely-taken (label length ≤ 4, or tld ".com" with label length
≤ 8, or the get/my/the/go prefix pattern) and its character-code-sum hash
mod 100 exceeds 30; in particular `aa.com` is unavailable regardless of its
hash value. -/
theorem mock_available_iff :
    (∀ domain : String,
       ((mockDomainOne domain).available = true ↔
         (¬ ((labelOf domain).length ≤ 4 ∨
             (tldOf domain = ".com" ∧ (labelOf domain).length ≤ 8) ∨
             likelyPrefixMatch (labelOf domain) = true)) ∧
         30 < charCodeSum domain % 100)) ∧
    mockDomainAvailability ["aa.com"] =
      [{ domain := "aa.com", available := false, premium := false, price := none,
         errorMessage := none }] := by
  constructor
  · intro d
    have hav : (mockDomainOne d).available =
        (!isLikelyTakenOf d && decide (charCodeSum d % 100 > 30)) := rfl
    rw [hav, Bool.and_eq_true, Bool.not_eq_true', ← Bool.not_eq_true, isLikelyTakenOf_iff,
      decide_eq_true_eq]
  · decide

/-- C10, counterexample: for keywords `["cat", "app"]` the generator's
compound step emits neither the reversed concatenation `appcat` (with any
tld) nor `catapp` with tlds other than `.com`/`.io`, even before truncation —
refuting "both concatenations with each active tld". -/
theorem compound_pair_counterexample :
    "appcat.com" ∉ generateDomainNamesSet ["cat", "app"] none ∧
    "appcat.io" ∉ generateDomainNamesSet ["cat", "app"] none ∧
    "catapp.ai" ∉ generateDomainNamesSet ["cat", "app"] none :=
  ⟨by decide, by decide, by decide⟩

/-- C10, amended: the compound step emits exactly one ordered pair — the
first two cleaned keywords concatenated in input order — and only with
`.com` and `.io`: whenever at least two cleaned keywords exist, both
`k0 ++ k1 ++ ".com"` and `k0 ++ k1 ++ ".io"` are in the suggestion set. -/
theorem compound_first_pair_emitted (keywords : List String)
    (tldsOpt : Option (List String)) (a b : String) (rest : List String)
    (h : cleanKeywordsOf keywords = a :: b :: rest) :
    (a ++ b ++ ".com") ∈ generateDomainNamesSet keywords tldsOpt ∧
    (a ++ b ++ ".io") ∈ generateDomainNamesSet keywords tldsOpt := by
  unfold generateDomainNamesSet
  simp only [h, List.getD_cons_zero, List.getD_cons_succ, List.length_cons]
  rw [if_pos (by omega)]
  exact ⟨mem_setAdd_of_mem _ (mem_setAdd_self _ _), mem_setAdd_self _ _⟩

/-- C10 witness: the amended compound emission at the concrete keywords
`["cat", "app"]`. -/
theorem compound_first_pair_emitted_witness :
    ("cat" ++ "app" ++ ".com") ∈ generateDomainNamesSet ["cat", "app"] none ∧
    ("cat" ++ "app" ++ ".io") ∈ generateDomainNamesSet ["cat", "app"] none :=
  compound_first_pair_emitted ["cat", "app"] none "cat" "app" [] (by decide)

end DomainBot
